import Mathlib

/-!
Shallow embedding of `src/app.py` (a Flask Messenger chatbot) and proofs of
the specification's claims about it.

The embedding models:
* the in-memory per-user context store (`user_contexts`, a dict of
  `deque(maxlen=10)`), as a function from user id to an optional list of turns;
* the SQLite-backed per-user message counter (`User.messages`), as a function
  from user id to an optional natural number;
* the OpenAI completion call and the database commit as oracles (the
  completion oracle returns `none` exactly when the Python call would raise);
* outbound Messenger sends as an append-only log of send records;
* the dispatch logic `process_message`, the event loop of the POST `/webhook`
  handler, and the GET `/webhook` verification handler.
-/

/-- Conversation turn, the Python dict with keys role and content built in
`update_context` (`src/app.py` line 56). -/
structure Turn where
  role : String
  content : String
deriving Repr, DecidableEq

/-- The in-memory context store `user_contexts : dict[str, deque]`
(`src/app.py` line 52); `none` models a key absent from the dict. -/
def Contexts : Type := String → Option (List Turn)

/-- The persisted user table keyed by id; `some n` models a `User` row whose
`messages` column holds `n` (`src/app.py` lines 41-44). -/
def DB : Type := String → Option Nat

/-- `CONTEXT_LIMIT = 10` (`src/app.py` line 51). -/
def CONTEXT_LIMIT : Nat := 10

/-- Effect of `deque(maxlen=CONTEXT_LIMIT).append`: the new element goes to
the right and, when the deque is full, the leftmost (oldest) element is
discarded. -/
def dequeAppend (l : List Turn) (t : Turn) : List Turn :=
  (l ++ [t]).drop ((l ++ [t]).length - CONTEXT_LIMIT)

/-- `update_context` (`src/app.py` lines 54-57): `setdefault` a fresh bounded
deque for `uid` and append the role/content turn to it. -/
def update_context (s : Contexts) (uid role content : String) : Contexts :=
  fun u => if u = uid then some (dequeAppend ((s uid).getD []) ⟨role, content⟩) else s u

/-- `get_context` (`src/app.py` lines 59-60): `list(user_contexts.get(uid, []))`. -/
def get_context (s : Contexts) (uid : String) : List Turn :=
  (s uid).getD []

/-- State-passing reading of `get_context`: the Python body performs no write
to `user_contexts`, so the call returns the copied list together with the
store exactly as it found it. -/
def get_context_st (s : Contexts) (uid : String) : List Turn × Contexts :=
  (get_context s uid, s)

/-- A sequence of `update_context` calls for one user, oldest first. -/
def appendTurns (s : Contexts) (uid : String) (ts : List (String × String)) : Contexts :=
  ts.foldl (fun s rc => update_context s uid rc.1 rc.2) s

theorem dequeAppend_length (l : List Turn) (t : Turn) :
    (dequeAppend l t).length = min (l.length + 1) CONTEXT_LIMIT := by
  simp [dequeAppend]
  omega

theorem foldl_dequeAppend (ts : List Turn) :
    ∀ l : List Turn, l.length ≤ CONTEXT_LIMIT →
      ts.foldl dequeAppend l = (l ++ ts).drop (l.length + ts.length - CONTEXT_LIMIT) := by
  induction ts with
  | nil =>
    intro l h
    have hz : l.length - CONTEXT_LIMIT = 0 := by omega
    simp [hz]
  | cons t ts ih =>
    intro l h
    rw [List.foldl_cons,
      ih (dequeAppend l t) (by rw [dequeAppend_length]; exact min_le_right _ _)]
    rw [dequeAppend_length]
    show ((l ++ [t]).drop ((l ++ [t]).length - CONTEXT_LIMIT) ++ ts).drop _ = _
    rw [← List.drop_append_of_le_length (Nat.sub_le _ _)]
    rw [List.drop_drop, List.append_assoc, List.singleton_append]
    congr 1
    simp
    omega

theorem get_context_update_self (s : Contexts) (uid r c : String) :
    get_context (update_context s uid r c) uid
      = dequeAppend (get_context s uid) ⟨r, c⟩ := by
  simp [get_context, update_context]

theorem get_context_appendTurns (ts : List (String × String)) :
    ∀ (s : Contexts) (uid : String),
      get_context (appendTurns s uid ts) uid
        = (ts.map fun rc => Turn.mk rc.1 rc.2).foldl dequeAppend (get_context s uid) := by
  induction ts with
  | nil => intro s uid; rfl
  | cons rc ts ih =>
    intro s uid
    show get_context (appendTurns (update_context s uid rc.1 rc.2) uid ts) uid = _
    rw [ih, List.map_cons, List.foldl_cons, get_context_update_self]

/-- C1: starting from a user with no context, after any sequence of appends
the stored context is exactly the suffix of the appended turns of length at
most `CONTEXT_LIMIT = 10` — the 10 most recent turns in their original
relative order — and its length never exceeds 10 (strict FIFO eviction). -/
theorem context_bounded_fifo (s : Contexts) (uid : String)
    (ts : List (String × String)) (h : s uid = none) :
    get_context (appendTurns s uid ts) uid
      = (ts.map fun rc => Turn.mk rc.1 rc.2).drop (ts.length - CONTEXT_LIMIT)
    ∧ (get_context (appendTurns s uid ts) uid).length ≤ CONTEXT_LIMIT := by
  have hbase : get_context s uid = [] := by simp [get_context, h]
  have hfold := foldl_dequeAppend (ts.map fun rc => Turn.mk rc.1 rc.2)
    (get_context s uid) (by rw [hbase]; simp [CONTEXT_LIMIT])
  rw [get_context_appendTurns, hfold, hbase]
  constructor
  · simp
  · simp
    omega

/-- Everywhere-empty context store, the state at process start. -/
def emptyCtxs : Contexts := fun _ => none

/-- Twelve appended turns, two more than the capacity. -/
def demoTurns : List (String × String) :=
  [("user", "m1"), ("assistant", "r1"), ("user", "m2"), ("assistant", "r2"),
   ("user", "m3"), ("assistant", "r3"), ("user", "m4"), ("assistant", "r4"),
   ("user", "m5"), ("assistant", "r5"), ("user", "m6"), ("assistant", "r6")]

/-- Witness for C1 at a concrete twelve-append run. -/
theorem context_bounded_fifo_witness :
    get_context (appendTurns emptyCtxs "u" demoTurns) "u"
      = (demoTurns.map fun rc => Turn.mk rc.1 rc.2).drop (demoTurns.length - CONTEXT_LIMIT)
    ∧ (get_context (appendTurns emptyCtxs "u" demoTurns) "u").length ≤ CONTEXT_LIMIT :=
  context_bounded_fifo emptyCtxs "u" demoTurns rfl

/-- Python `str.lower()`, applied characterwise. -/
def lowerStr (s : String) : String :=
  String.mk (s.data.map Char.toLower)

/-- Python `str.strip()`: whitespace removed from both ends. -/
def stripStr (s : String) : String :=
  String.mk (((s.data.dropWhile Char.isWhitespace).reverse.dropWhile
    Char.isWhitespace).reverse)

/-- Contiguous-sublist test on character lists. -/
def subListOf (needle : List Char) : List Char → Bool
  | [] => needle.isEmpty
  | c :: rest => needle.isPrefixOf (c :: rest) || subListOf needle rest

/-- Python substring test `needle in hay`. -/
def containsSub (needle hay : String) : Bool :=
  subListOf needle.data hay.data

/-- The fixed human-support trigger phrases (`src/app.py` line 103). -/
def TRIGGERS : List String :=
  ["دعم بشري", "موظف", "مساعدة حقيقية", "تحدث إلى شخص"]

/-- The trigger test of `process_message` (`src/app.py` line 103):
`any(k in text.lower() for k in [...])`. -/
def isTrigger (text : String) : Bool :=
  TRIGGERS.any fun k => containsSub k (lowerStr text)

/-- Fixed fallback reply used when the OpenAI call fails (`src/app.py` line 97). -/
def FALLBACK : String := "عذرًا، تعذّر الردّ حاليًا."

/-- Leading system instruction prepended to the context (`src/app.py` line 87). -/
def SYSTEM_PROMPT : Turn := ⟨"system", "أجب بإيجاز وبأسلوب ودود."⟩

/-- Human-support notice text (`src/app.py` lines 104 and 133). -/
def HUMAN_SUPPORT_NOTICE : String := "تم تحويلك للدعم البشري، يرجى الانتظار."

/-- Service-info notice text (`src/app.py` line 135). -/
def SERVICE_INFO_NOTICE : String := "نقدم خدماتنا على مدار الساعة. كيف أساعدك؟"

/-- The two quick-reply descriptors (title, payload) attached to normal
replies (`src/app.py` lines 108-111). -/
def QR : List (String × String) :=
  [("دعم بشري", "HUMAN_SUPPORT"), ("معلومات عن الخدمات", "SERVICE_INFO")]

/-- One outbound Messenger send: recipient, text, attached quick replies. -/
structure SendRec where
  recipient : String
  text : String
  quick_replies : List (String × String)
deriving Repr, DecidableEq

/-- External behavior the program depends on. `gpt` models
`openai.chat.completions.create` plus the extraction of the first choice:
`none` when the Python expression raises (network, quota, malformed
response), `some raw` when it yields content `raw`. `commitFail uid` models
`db.session.commit()` raising inside `log_conversation(uid)`. -/
structure Oracles where
  gpt : List Turn → Option String
  commitFail : String → Bool

/-- Whole observable program state: the context dict, the user table, the
log of outbound sends, and how many times the completion endpoint was
invoked. -/
structure Env where
  contexts : Contexts
  db : DB
  sent : List SendRec
  gptCalls : Nat

/-- `send_message` (`src/app.py` lines 70-82): one outbound POST; an HTTP
failure is caught and logged, so the attempt is recorded unconditionally and
nothing else changes. -/
def send_message (env : Env) (recipient_id text : String)
    (quick_replies : List (String × String)) : Env :=
  { env with sent := env.sent ++ [⟨recipient_id, text, quick_replies⟩] }

/-- `log_conversation` (`src/app.py` lines 63-67): load or create the row for
`uid`, set `messages` to its old value (`None` read as 0) plus one, commit.
`commitFail` raising is the `.error` branch. -/
def log_conversation (ω : Oracles) (db : DB) (uid : String) : Except Unit DB :=
  if ω.commitFail uid then .error ()
  else .ok (fun u => if u = uid then some ((db uid).getD 0 + 1) else db u)

/-- `ask_gpt` (`src/app.py` lines 85-99): append the user turn, call the
completion endpoint on system prompt plus context, strip the first choice on
success or substitute `FALLBACK` on any exception, append the reply as an
assistant turn, and return it. -/
def ask_gpt (gpt : List Turn → Option String) (env : Env) (uid user_msg : String) :
    String × Env :=
  let ctxs1 := update_context env.contexts uid "user" user_msg
  let full_messages := SYSTEM_PROMPT :: get_context ctxs1 uid
  let bot_reply := match gpt full_messages with
    | some raw => stripStr raw
    | none => FALLBACK
  (bot_reply,
    { env with
      contexts := update_context ctxs1 uid "assistant" bot_reply
      gptCalls := env.gptCalls + 1 })

/-- `process_message` (`src/app.py` lines 102-112): trigger phrases short-
circuit to the human-support notice; otherwise ask GPT, log the conversation
(a commit failure propagates as `.error` carrying the state at the raise
point), and send the reply with the two quick replies. -/
def process_message (ω : Oracles) (env : Env) (uid text : String) : Except Env Env :=
  if isTrigger text then
    .ok (send_message env uid HUMAN_SUPPORT_NOTICE [])
  else
    let (reply, env1) := ask_gpt ω.gpt env uid text
    match log_conversation ω env1.db uid with
    | .error _ => .error env1
    | .ok db1 => .ok (send_message { env1 with db := db1 } uid reply QR)

/-- One entry of `entry[].messaging[]` as the POST handler reads it
(`src/app.py` lines 127-131): optional `sender.id`, optional `message.text`,
optional `message.quick_reply.payload`. -/
structure MsgEvent where
  sender : Option String
  text : Option String
  quick_reply : Option String
deriving Repr, DecidableEq

/-- Body of one iteration of the POST `/webhook` loop (`src/app.py` lines
127-137): events lacking a truthy sender id or a `text` field are skipped; a
quick-reply payload is answered with its canned reply (unknown payloads
silently ignored); otherwise the text goes to `process_message`. -/
def handle_event (ω : Oracles) (env : Env) (ev : MsgEvent) : Except Env Env :=
  match ev.sender with
  | none => .ok env
  | some uid =>
    if uid = "" then .ok env
    else
      match ev.text with
      | none => .ok env
      | some text =>
        match ev.quick_reply with
        | some payload =>
          if payload = "HUMAN_SUPPORT" then
            .ok (send_message env uid HUMAN_SUPPORT_NOTICE [])
          else if payload = "SERVICE_INFO" then
            .ok (send_message env uid SERVICE_INFO_NOTICE [])
          else .ok env
        | none => process_message ω env uid text

/-- A JSON value, the shape of a parsed POST body. -/
inductive Json where
  | null
  | bool (b : Bool)
  | num (n : Int)
  | str (s : String)
  | arr (elems : List Json)
  | obj (fields : List (String × Json))

/-- The uncaught exception classes the POST handler's reads can raise. -/
inductive PyExn where
  | attrError
  | typeError
  | keyError
deriving Repr, DecidableEq

/-- Python truthiness of a JSON value. -/
def truthy : Json → Bool
  | .null => false
  | .bool b => b
  | .num n => n != 0
  | .str s => s != ""
  | .arr xs => !xs.isEmpty
  | .obj fs => !fs.isEmpty

/-- Python `v.get(key, default)`: only dicts have `.get`; any other value
raises AttributeError. -/
def pyGet (v : Json) (key : String) (default : Json) : Except PyExn Json :=
  match v with
  | .obj fs => .ok ((fs.lookup key).getD default)
  | _ => .error .attrError

/-- Python `v[key]` for a string key: dict lookup raising KeyError when the
key is absent; every non-dict raises TypeError. -/
def pyIndex (v : Json) (key : String) : Except PyExn Json :=
  match v with
  | .obj fs =>
    match fs.lookup key with
    | some x => .ok x
    | none => .error .keyError
  | _ => .error .typeError

/-- Python `element == needle` for a string needle: true only for an equal
string. -/
def jsonEqStr (v : Json) (needle : String) : Bool :=
  match v with
  | .str s => s = needle
  | _ => false

/-- Python `key in v` for a string key: key membership for dicts, element
equality for lists, substring for strings; other values raise TypeError. -/
def pyContains (v : Json) (key : String) : Except PyExn Bool :=
  match v with
  | .obj fs => .ok (fs.lookup key).isSome
  | .arr xs => .ok (xs.any fun x => jsonEqStr x key)
  | .str s => .ok (containsSub key s)
  | _ => .error .typeError

/-- Python `for x in v`: lists yield elements, strings yield one-character
strings, dicts yield their keys; other values raise TypeError. -/
def pyIter (v : Json) : Except PyExn (List Json) :=
  match v with
  | .arr xs => .ok xs
  | .str s => .ok (s.data.map fun c => .str (String.mk [c]))
  | .obj fs => .ok (fs.map fun kv => .str kv.1)
  | _ => .error .typeError

/-- Whether a JSON value may be used as a Python dict key: lists and dicts
are unhashable and raise TypeError at `user_contexts.setdefault`. -/
def jsonHashable : Json → Bool
  | .arr _ => false
  | .obj _ => false
  | _ => true

/-- String rendering of a sender-id value, keying the context store, the
user table and the send log of the model. The Python code uses the raw
value as dict key and serializes it into the outbound send; well-shaped
traffic only carries string ids, and no theorem depends on the rendering
of a non-string id. -/
def jsonAsId : Json → String
  | .str s => s
  | .num n => toString n
  | .bool b => toString b
  | .null => "None"
  | .arr _ => ""
  | .obj _ => ""

/-- An exception escaping the POST handler: a shape error from one of the
reads, or a database commit failure inside `log_conversation`; each carries
the state at the raise point. -/
inductive Fault where
  | shape (e : PyExn) (env : Env)
  | commit (env : Env)

/-- The call `process_message(uid, text)` with the raw JSON values the loop
extracted (`src/app.py` line 137): a non-string text raises AttributeError
at `text.lower()`; a trigger text answers before any context access; an
unhashable uid then raises TypeError at `user_contexts.setdefault`;
otherwise the typed dispatch runs and a commit failure propagates. -/
def processDispatchJson (ω : Oracles) (env : Env) (uid textv : Json) :
    Except Fault Env :=
  match textv with
  | .str t =>
    if isTrigger t then
      .ok (send_message env (jsonAsId uid) HUMAN_SUPPORT_NOTICE [])
    else if jsonHashable uid then
      match process_message ω env (jsonAsId uid) t with
      | .ok e => .ok e
      | .error e => .error (.commit e)
    else .error (.shape .typeError env)
  | _ => .error (.shape .attrError env)

/-- One iteration of the POST loop body (`src/app.py` lines 127-137), read
by read: `uid = ev.get("sender", {}).get("id")`, `msg = ev.get("message",
{})`, the guard `if uid and "text" in msg`, the quick-reply branch with its
`msg["quick_reply"]["payload"]` extraction, and the dispatch to
`process_message`; every read failure is an uncaught exception. -/
def handleEventJson (ω : Oracles) (env : Env) (ev : Json) : Except Fault Env :=
  match pyGet ev "sender" (.obj []) with
  | .error e => .error (.shape e env)
  | .ok sender =>
    match pyGet sender "id" .null with
    | .error e => .error (.shape e env)
    | .ok uid =>
      match pyGet ev "message" (.obj []) with
      | .error e => .error (.shape e env)
      | .ok msg =>
        if truthy uid then
          match pyContains msg "text" with
          | .error e => .error (.shape e env)
          | .ok false => .ok env
          | .ok true =>
            match pyGet msg "quick_reply" .null with
            | .error e => .error (.shape e env)
            | .ok qr =>
              if truthy qr then
                match pyIndex msg "quick_reply" with
                | .error e => .error (.shape e env)
                | .ok qv =>
                  match pyIndex qv "payload" with
                  | .error e => .error (.shape e env)
                  | .ok payload =>
                    if jsonEqStr payload "HUMAN_SUPPORT" then
                      .ok (send_message env (jsonAsId uid) HUMAN_SUPPORT_NOTICE [])
                    else if jsonEqStr payload "SERVICE_INFO" then
                      .ok (send_message env (jsonAsId uid) SERVICE_INFO_NOTICE [])
                    else .ok env
              else
                match pyIndex msg "text" with
                | .error e => .error (.shape e env)
                | .ok textv => processDispatchJson ω env uid textv
        else .ok env

/-- The inner `for ev in entry.get("messaging", [])` loop over one entry's
events; the first uncaught exception aborts everything. -/
def runMessaging (ω : Oracles) : Env → List Json → Except Fault Env
  | env, [] => .ok env
  | env, ev :: rest =>
    match handleEventJson ω env ev with
    | .ok env1 => runMessaging ω env1 rest
    | .error f => .error f

/-- One iteration of `for entry in data.get("entry", [])`: read and iterate
the entry's messaging value, then run its events. -/
def runEntry (ω : Oracles) (env : Env) (entry : Json) : Except Fault Env :=
  match pyGet entry "messaging" (.arr []) with
  | .error e => .error (.shape e env)
  | .ok mv =>
    match pyIter mv with
    | .error e => .error (.shape e env)
    | .ok evs => runMessaging ω env evs

/-- The outer loop over entries. -/
def runEntries (ω : Oracles) : Env → List Json → Except Fault Env
  | env, [] => .ok env
  | env, entry :: rest =>
    match runEntry ω env entry with
    | .ok env1 => runEntries ω env1 rest
    | .error f => .error f

/-- HTTP outcome of a POST to `/webhook`: `ok` is the fixed 200
acknowledgment with body status ok; `fault` is an exception escaping the
handler (an error response, not the acknowledgment). -/
inductive HttpResult where
  | ok (env : Env)
  | fault (f : Fault)

/-- Test for the fixed 200 success acknowledgment. -/
def HttpResult.isOk : HttpResult → Bool
  | .ok _ => true
  | .fault _ => false

/-- POST `/webhook` (`src/app.py` lines 122-138): `data =
request.get_json(silent=True) or {}` reads a missing, unparsable or falsy
body as the empty dict; then `data.get("entry", [])` is read and iterated —
each step raising for wrong-typed values — and every event of every entry
is dispatched in order; `jsonify(status="ok"), 200` is reached only if
nothing raised. -/
def webhookPost (ω : Oracles) (env : Env) (body : Option Json) : HttpResult :=
  let data := match body with
    | none => Json.obj []
    | some v => if truthy v then v else Json.obj []
  match pyGet data "entry" (.arr []) with
  | .error e => .fault (.shape e env)
  | .ok ev =>
    match pyIter ev with
    | .error e => .fault (.shape e env)
    | .ok entries =>
      match runEntries ω env entries with
      | .ok e => .ok e
      | .error f => .fault f

/-- Sufficient shape condition on one event for the loop body to read it
without raising and dispatch it over a string id: the event is an object;
its sender value (if any) is an object; when the id is truthy it is a
string, the message value is an object, and — when that object has a text
key — a truthy quick_reply must be an object carrying a payload key, and
otherwise the text value must be a string. -/
def wellShapedEvent (ev : Json) : Bool :=
  match ev with
  | .obj fs =>
    match (fs.lookup "sender").getD (.obj []) with
    | .obj sfs =>
      let uid := (sfs.lookup "id").getD .null
      if truthy uid then
        match uid with
        | .str _ =>
          match (fs.lookup "message").getD (.obj []) with
          | .obj mfs =>
            match mfs.lookup "text" with
            | none => true
            | some tv =>
              let qr := (mfs.lookup "quick_reply").getD .null
              if truthy qr then
                match qr with
                | .obj qfs => (qfs.lookup "payload").isSome
                | _ => false
              else
                match tv with
                | .str _ => true
                | _ => false
          | _ => false
        | _ => false
      else true
    | _ => false
  | _ => false

/-- Sufficient shape condition on one entry: an object whose messaging
value (if any) is a list of well-shaped events. -/
def wellShapedEntry (entry : Json) : Bool :=
  match entry with
  | .obj fs =>
    match (fs.lookup "messaging").getD (.arr []) with
    | .arr evs => evs.all wellShapedEvent
    | _ => false
  | _ => false

/-- Sufficient shape condition on a POST body: absent or falsy (read as the
empty dict), or an object whose entry value (if any) is a list of
well-shaped entries. -/
def wellShapedBody (body : Option Json) : Bool :=
  match body with
  | none => true
  | some v =>
    if truthy v then
      match v with
      | .obj fs =>
        match (fs.lookup "entry").getD (.arr []) with
        | .arr entries => entries.all wellShapedEntry
        | _ => false
      | _ => false
    else true

/-- GET `/webhook` (`src/app.py` lines 115-119): echo `hub.challenge` (empty
when absent) with status 200 if the supplied `hub.verify_token` equals the
configured secret, else body Invalid token with status 403. -/
def verify_webhook (vt : String) (token challenge : Option String) :
    String × Nat :=
  if token = some vt then (challenge.getD "", 200)
  else ("Invalid token", 403)

/-- Oracles where the completion call always raises and no commit ever
fails. -/
def noFailOracles : Oracles := ⟨fun _ => none, fun _ => false⟩

/-- Oracles where the completion call succeeds but every commit raises. -/
def failCommitOracles : Oracles := ⟨fun _ => some "hi", fun _ => true⟩

/-- Empty user table, the state of a fresh database. -/
def emptyDB : DB := fun _ => none

/-- Program state at startup: no contexts, no rows, nothing sent. -/
def initEnv : Env := ⟨emptyCtxs, emptyDB, [], 0⟩

/-- Store holding one turn for user u and nothing else. -/
def demoStore : Contexts :=
  fun u => if u = "u" then some [⟨"user", "hi"⟩] else none

/-- C2: `get_context` leaves the store unchanged, returns the empty sequence
for a user with no context, and otherwise returns exactly the stored ordered
turns. -/
theorem get_context_snapshot (s : Contexts) (uid : String) :
    (get_context_st s uid).2 = s
    ∧ (s uid = none → (get_context_st s uid).1 = [])
    ∧ ∀ l, s uid = some l → (get_context_st s uid).1 = l := by
  refine ⟨rfl, ?_, ?_⟩
  · intro h
    simp [get_context_st, get_context, h]
  · intro l h
    simp [get_context_st, get_context, h]

/-- Witness for C2 on a concrete one-user store. -/
theorem get_context_snapshot_witness :
    (get_context_st demoStore "v").1 = []
    ∧ (get_context_st demoStore "u").1 = [⟨"user", "hi"⟩]
    ∧ (get_context_st demoStore "u").2 = demoStore :=
  ⟨(get_context_snapshot demoStore "v").2.1 rfl,
   (get_context_snapshot demoStore "u").2.2 _ rfl,
   (get_context_snapshot demoStore "u").1⟩

/-- C3: a message whose text matches a human-support trigger phrase yields
exactly one outbound send of the human-support notice, with the context
store, the user table and the completion-call count untouched. -/
theorem process_message_trigger (ω : Oracles) (env : Env) (uid text : String)
    (h : isTrigger text = true) :
    ∃ env1, process_message ω env uid text = .ok env1
      ∧ env1.sent = env.sent ++ [⟨uid, HUMAN_SUPPORT_NOTICE, []⟩]
      ∧ env1.contexts = env.contexts
      ∧ env1.db = env.db
      ∧ env1.gptCalls = env.gptCalls := by
  refine ⟨send_message env uid HUMAN_SUPPORT_NOTICE [], ?_, rfl, rfl, rfl, rfl⟩
  simp [process_message, h]

/-- Witness for C3 at the inbound text literally equal to the first trigger
phrase. -/
theorem process_message_trigger_witness :
    ∃ env1, process_message noFailOracles initEnv "u" "دعم بشري" = .ok env1
      ∧ env1.sent = initEnv.sent ++ [⟨"u", HUMAN_SUPPORT_NOTICE, []⟩]
      ∧ env1.contexts = initEnv.contexts
      ∧ env1.db = initEnv.db
      ∧ env1.gptCalls = initEnv.gptCalls :=
  process_message_trigger noFailOracles initEnv "u" "دعم بشري" (by decide)

/-- C4: an event carrying both a text field and a quick-reply payload is
answered from the payload alone: HUMAN_SUPPORT and SERVICE_INFO each produce
exactly one send of their canned notice with no other state change, and any
other payload changes nothing and sends nothing; the completion endpoint is
never invoked. -/
theorem handle_event_quick_reply (ω : Oracles) (env : Env)
    (uid text payload : String) (h : uid ≠ "") :
    (payload = "HUMAN_SUPPORT" →
      handle_event ω env ⟨some uid, some text, some payload⟩
        = .ok { env with sent := env.sent ++ [⟨uid, HUMAN_SUPPORT_NOTICE, []⟩] })
    ∧ (payload = "SERVICE_INFO" →
      handle_event ω env ⟨some uid, some text, some payload⟩
        = .ok { env with sent := env.sent ++ [⟨uid, SERVICE_INFO_NOTICE, []⟩] })
    ∧ (payload ≠ "HUMAN_SUPPORT" → payload ≠ "SERVICE_INFO" →
      handle_event ω env ⟨some uid, some text, some payload⟩ = .ok env) := by
  refine ⟨?_, ?_, ?_⟩
  · intro hp
    subst hp
    simp [handle_event, h, send_message]
  · intro hp
    subst hp
    simp [handle_event, h, send_message]
  · intro hp1 hp2
    simp [handle_event, h, hp1, hp2]

/-- Witness for C4 at the three concrete payload classes. -/
theorem handle_event_quick_reply_witness :
    handle_event noFailOracles initEnv ⟨some "u", some "hi", some "HUMAN_SUPPORT"⟩
      = .ok { initEnv with sent := initEnv.sent ++ [⟨"u", HUMAN_SUPPORT_NOTICE, []⟩] }
    ∧ handle_event noFailOracles initEnv ⟨some "u", some "hi", some "SERVICE_INFO"⟩
      = .ok { initEnv with sent := initEnv.sent ++ [⟨"u", SERVICE_INFO_NOTICE, []⟩] }
    ∧ handle_event noFailOracles initEnv ⟨some "u", some "hi", some "X"⟩
      = .ok initEnv :=
  ⟨(handle_event_quick_reply noFailOracles initEnv "u" "hi" "HUMAN_SUPPORT"
      (by decide)).1 rfl,
   (handle_event_quick_reply noFailOracles initEnv "u" "hi" "SERVICE_INFO"
      (by decide)).2.1 rfl,
   (handle_event_quick_reply noFailOracles initEnv "u" "hi" "X"
      (by decide)).2.2 (by decide) (by decide)⟩

/-- C5: on a normal (non-trigger) message with a completion client that
fails on every input and a successful commit, the dispatcher still returns
normally, still sends exactly one reply — the fixed fallback text with the
two quick replies — and still increments the user's persisted counter. -/
theorem process_message_gpt_failure (ω : Oracles) (env : Env) (uid text : String)
    (h1 : isTrigger text = false) (h2 : ∀ m, ω.gpt m = none)
    (h3 : ω.commitFail uid = false) :
    ∃ env1, process_message ω env uid text = .ok env1
      ∧ env1.sent = env.sent ++ [⟨uid, FALLBACK, QR⟩]
      ∧ env1.db uid = some ((env.db uid).getD 0 + 1) := by
  have ha : ask_gpt ω.gpt env uid text
      = (FALLBACK,
        { env with
          contexts := update_context (update_context env.contexts uid "user" text)
            uid "assistant" FALLBACK
          gptCalls := env.gptCalls + 1 }) := by
    simp [ask_gpt, h2]
  refine ⟨send_message
      { env with
        contexts := update_context (update_context env.contexts uid "user" text)
          uid "assistant" FALLBACK
        db := fun u => if u = uid then some ((env.db uid).getD 0 + 1) else env.db u
        gptCalls := env.gptCalls + 1 }
      uid FALLBACK QR,
    ?_, by simp [send_message], by simp [send_message]⟩
  simp [process_message, h1, ha, log_conversation, h3, send_message]

/-- Witness for C5: a plain greeting, the always-failing completion oracle,
and a commit that succeeds. -/
theorem process_message_gpt_failure_witness :
    ∃ env1, process_message noFailOracles initEnv "u" "hello" = .ok env1
      ∧ env1.sent = initEnv.sent ++ [⟨"u", FALLBACK, QR⟩]
      ∧ env1.db "u" = some ((initEnv.db "u").getD 0 + 1) :=
  process_message_gpt_failure noFailOracles initEnv "u" "hello"
    (by decide) (fun m => rfl) rfl

/-- C6: when the commit succeeds, `log_conversation` sets the user's counter
to its old value plus one, creates the row with counter 1 for a user with no
row, and leaves every other user's row unchanged. -/
theorem log_conversation_increments (ω : Oracles) (db : DB) (uid : String)
    (h : ω.commitFail uid = false) :
    ∃ db1, log_conversation ω db uid = .ok db1
      ∧ db1 uid = some ((db uid).getD 0 + 1)
      ∧ (db uid = none → db1 uid = some 1)
      ∧ ∀ v, v ≠ uid → db1 v = db v := by
  refine ⟨fun u => if u = uid then some ((db uid).getD 0 + 1) else db u,
    by simp [log_conversation, h], by simp, ?_, ?_⟩
  · intro hn
    simp [hn]
  · intro v hv
    simp [hv]

/-- Witness for C6 on an empty table. -/
theorem log_conversation_increments_witness :
    ∃ db1, log_conversation noFailOracles emptyDB "u" = .ok db1
      ∧ db1 "u" = some ((emptyDB "u").getD 0 + 1)
      ∧ (emptyDB "u" = none → db1 "u" = some 1)
      ∧ ∀ v, v ≠ "u" → db1 v = emptyDB v :=
  log_conversation_increments noFailOracles emptyDB "u" rfl

theorem process_message_no_commit_failure (ω : Oracles) (env : Env)
    (uid text : String) (h : ω.commitFail uid = false) :
    ∃ env1, process_message ω env uid text = .ok env1 := by
  by_cases ht : isTrigger text = true
  · exact ⟨send_message env uid HUMAN_SUPPORT_NOTICE [],
      by simp [process_message, ht]⟩
  · rw [Bool.not_eq_true] at ht
    rcases hask : ask_gpt ω.gpt env uid text with ⟨reply, env1⟩
    refine ⟨send_message
        { env1 with
          db := fun u =>
            if u = uid then some ((env1.db uid).getD 0 + 1) else env1.db u }
        uid reply QR, ?_⟩
    simp [process_message, ht, hask, log_conversation, h]

theorem processDispatchJson_str_ok (ω : Oracles) (env : Env) (u t : String)
    (h : ω.commitFail u = false) :
    ∃ e, processDispatchJson ω env (.str u) (.str t) = .ok e := by
  by_cases ht : isTrigger t = true
  · exact ⟨send_message env u HUMAN_SUPPORT_NOTICE [],
      by simp [processDispatchJson, jsonAsId, ht]⟩
  · rw [Bool.not_eq_true] at ht
    obtain ⟨e, he⟩ := process_message_no_commit_failure ω env u t h
    exact ⟨e, by simp [processDispatchJson, jsonAsId, jsonHashable, ht, he]⟩

theorem handleEventJson_ok (ω : Oracles) (h : ∀ u, ω.commitFail u = false)
    (env : Env) (ev : Json) (hw : wellShapedEvent ev = true) :
    ∃ e, handleEventJson ω env ev = .ok e := by
  cases ev with
  | null => simp [wellShapedEvent] at hw
  | bool b => simp [wellShapedEvent] at hw
  | num n => simp [wellShapedEvent] at hw
  | str s => simp [wellShapedEvent] at hw
  | arr xs => simp [wellShapedEvent] at hw
  | obj fs =>
    simp only [wellShapedEvent] at hw
    split at hw
    · rename_i sfs hsender
      by_cases htu : truthy ((sfs.lookup "id").getD .null) = true
      case neg =>
        exact ⟨env, by simp [handleEventJson, pyGet, hsender, htu]⟩
      case pos =>
        rw [if_pos htu] at hw
        split at hw
        · rename_i u huid
          rw [huid] at htu
          split at hw
          · rename_i mfs hmsg
            split at hw
            · rename_i htext
              exact ⟨env, by simp [handleEventJson, pyGet, pyContains, hsender, huid,
                htu, hmsg, htext]⟩
            · rename_i tv htext
              by_cases htq : truthy ((mfs.lookup "quick_reply").getD .null) = true
              case pos =>
                rw [if_pos htq] at hw
                split at hw
                · rename_i qfs hqr
                  rw [hqr] at htq
                  have hlq : mfs.lookup "quick_reply" = some (.obj qfs) := by
                    cases hl : mfs.lookup "quick_reply" with
                    | none =>
                      rw [hl] at hqr
                      simp only [Option.getD_none] at hqr
                      exact Json.noConfusion hqr
                    | some x =>
                      rw [hl] at hqr
                      simp only [Option.getD_some] at hqr
                      rw [hqr]
                  obtain ⟨p, hp⟩ := Option.isSome_iff_exists.mp hw
                  by_cases hp1 : jsonEqStr p "HUMAN_SUPPORT" = true
                  · exact ⟨send_message env (jsonAsId (.str u)) HUMAN_SUPPORT_NOTICE [],
                      by simp [handleEventJson, pyGet, pyContains, pyIndex, hsender,
                        huid, htu, hmsg, htext, htq, hqr, hlq, hp, hp1]⟩
                  · by_cases hp2 : jsonEqStr p "SERVICE_INFO" = true
                    · exact ⟨send_message env (jsonAsId (.str u)) SERVICE_INFO_NOTICE [],
                        by simp [handleEventJson, pyGet, pyContains, pyIndex, hsender,
                          huid, htu, hmsg, htext, htq, hqr, hlq, hp, hp1, hp2]⟩
                    · exact ⟨env,
                        by simp [handleEventJson, pyGet, pyContains, pyIndex, hsender,
                          huid, htu, hmsg, htext, htq, hqr, hlq, hp, hp1, hp2]⟩
                · simp at hw
              case neg =>
                rw [if_neg htq] at hw
                split at hw
                · rename_i t
                  obtain ⟨e, he⟩ := processDispatchJson_str_ok ω env u t (h u)
                  exact ⟨e, by simp [handleEventJson, pyGet, pyContains, pyIndex,
                    hsender, huid, htu, hmsg, htext, htq, he]⟩
                · simp at hw
          · simp at hw
        · simp at hw
    · simp at hw

theorem runMessaging_ok (ω : Oracles) (h : ∀ u, ω.commitFail u = false) :
    ∀ (evs : List Json) (env : Env), evs.all wellShapedEvent = true →
      ∃ e, runMessaging ω env evs = .ok e := by
  intro evs
  induction evs with
  | nil => intro env _; exact ⟨env, rfl⟩
  | cons ev rest ih =>
    intro env hall
    rw [List.all_cons, Bool.and_eq_true] at hall
    obtain ⟨e1, he⟩ := handleEventJson_ok ω h env ev hall.1
    obtain ⟨e2, hr⟩ := ih e1 hall.2
    exact ⟨e2, by simp [runMessaging, he, hr]⟩

theorem runEntry_ok (ω : Oracles) (h : ∀ u, ω.commitFail u = false)
    (env : Env) (entry : Json) (hw : wellShapedEntry entry = true) :
    ∃ e, runEntry ω env entry = .ok e := by
  cases entry with
  | null => simp [wellShapedEntry] at hw
  | bool b => simp [wellShapedEntry] at hw
  | num n => simp [wellShapedEntry] at hw
  | str s => simp [wellShapedEntry] at hw
  | arr xs => simp [wellShapedEntry] at hw
  | obj fs =>
    simp only [wellShapedEntry] at hw
    split at hw
    · rename_i evs hm
      obtain ⟨e, he⟩ := runMessaging_ok ω h evs env hw
      exact ⟨e, by simp [runEntry, pyGet, pyIter, hm, he]⟩
    · simp at hw

theorem runEntries_ok (ω : Oracles) (h : ∀ u, ω.commitFail u = false) :
    ∀ (entries : List Json) (env : Env), entries.all wellShapedEntry = true →
      ∃ e, runEntries ω env entries = .ok e := by
  intro entries
  induction entries with
  | nil => intro env _; exact ⟨env, rfl⟩
  | cons entry rest ih =>
    intro env hall
    rw [List.all_cons, Bool.and_eq_true] at hall
    obtain ⟨e1, he⟩ := runEntry_ok ω h env entry hall.1
    obtain ⟨e2, hr⟩ := ih e1 hall.2
    exact ⟨e2, by simp [runEntries, he, hr]⟩

/-- C7 (amended): a POST whose body is absent, falsy, or a well-shaped event
envelope, and during which no database commit fails, always gets the fixed
200 success acknowledgment, whatever the completion and send outcomes; a
commit failure, or an ill-shaped body that raises inside the loop, escapes
as an unhandled fault and the response is then not the acknowledgment. -/
theorem webhook_ok_wellshaped_no_commit_failure (ω : Oracles) (env : Env)
    (body : Option Json) (hb : wellShapedBody body = true)
    (h : ∀ u, ω.commitFail u = false) :
    (webhookPost ω env body).isOk = true := by
  cases body with
  | none => simp [webhookPost, pyGet, pyIter, runEntries, HttpResult.isOk]
  | some v =>
    simp only [wellShapedBody] at hb
    by_cases htv : truthy v = true
    case neg =>
      simp [webhookPost, htv, pyGet, pyIter, runEntries, HttpResult.isOk]
    case pos =>
      rw [if_pos htv] at hb
      split at hb
      · rename_i fs
        split at hb
        · rename_i entries hent
          obtain ⟨e, he⟩ := runEntries_ok ω h entries env hb
          simp [webhookPost, htv, pyGet, pyIter, hent, he, HttpResult.isOk]
        · simp at hb
      · simp at hb

/-- Well-shaped one-event POST body: one entry, one messaging event, string
sender id, message object with a string text. -/
def demoBody : Json :=
  .obj [("entry", .arr [.obj [("messaging", .arr [.obj
    [("sender", .obj [("id", .str "u")]),
     ("message", .obj [("text", .str "hello")])]])]])]

/-- Witness for the amended C7: the well-shaped one-event body under oracles
whose commits never fail (and whose completion call always fails, which must
not matter). -/
theorem webhook_ok_wellshaped_no_commit_failure_witness :
    (webhookPost noFailOracles initEnv (some demoBody)).isOk = true :=
  webhook_ok_wellshaped_no_commit_failure noFailOracles initEnv (some demoBody)
    (by decide) (fun _ => rfl)

/-- Counterexample to C7 as stated: with a failing database commit, a normal
well-shaped one-message POST does not produce the 200 success acknowledgment
— the commit exception escapes `log_conversation` and aborts the handler. -/
theorem webhook_commit_failure_counterexample :
    (webhookPost failCommitOracles initEnv (some demoBody)).isOk = false := by
  decide

/-- One-event POST body whose truthy quick_reply object lacks a payload
key. -/
def payloadlessBody : Json :=
  .obj [("entry", .arr [.obj [("messaging", .arr [.obj
    [("sender", .obj [("id", .str "u")]),
     ("message", .obj [("text", .str "hi"),
       ("quick_reply", .obj [("foo", .str "bar")])])]])]])]

/-- Second uncovered fault path of the original C7: a truthy quick_reply
object without a payload key raises KeyError at
`msg["quick_reply"]["payload"]` with no commit involved, so the response is
not the acknowledgment. -/
theorem webhook_missing_payload_fault :
    (webhookPost noFailOracles initEnv (some payloadlessBody)).isOk = false := by
  decide

/-- Third uncovered fault path of the original C7: a truthy non-object JSON
body raises AttributeError at `data.get("entry", [])` with no commit
involved, so the response is not the acknowledgment. -/
theorem webhook_nonobject_body_fault :
    (webhookPost noFailOracles initEnv (some (.arr [.num 1]))).isOk = false := by
  decide

/-- C8: the GET verification endpoint echoes the supplied challenge with
status 200 exactly when the supplied token equals the configured secret, and
otherwise answers 403 with body Invalid token. -/
theorem verify_webhook_spec (vt : String) (token : Option String) (ch : String) :
    verify_webhook vt token (some ch)
      = if token = some vt then (ch, 200) else ("Invalid token", 403) := by
  by_cases h : token = some vt <;> simp [verify_webhook, h]

/-- C9: an event whose message has no text field is skipped outright — no
send, no state change — even when it carries a recognized quick-reply
payload. -/
theorem handle_event_no_text (ω : Oracles) (env : Env)
    (sender qr : Option String) :
    handle_event ω env ⟨sender, none, qr⟩ = .ok env := by
  cases sender with
  | none => rfl
  | some uid =>
    by_cases hu : uid = "" <;> simp [handle_event, hu]

/-- C10: one completion step appends exactly two turns to the caller's
context — the user's text, then the returned reply — increments the
completion-call count even on failure, and when the completion client fails
the appended reply is the fixed fallback string. -/
theorem ask_gpt_context_effect (gpt : List Turn → Option String) (env : Env)
    (uid msg : String) :
    get_context (ask_gpt gpt env uid msg).2.contexts uid
      = dequeAppend (dequeAppend (get_context env.contexts uid) ⟨"user", msg⟩)
          ⟨"assistant", (ask_gpt gpt env uid msg).1⟩
    ∧ (ask_gpt gpt env uid msg).2.gptCalls = env.gptCalls + 1
    ∧ ((∀ m, gpt m = none) → (ask_gpt gpt env uid msg).1 = FALLBACK) := by
  refine ⟨?_, rfl, ?_⟩
  · have hsnd : (ask_gpt gpt env uid msg).2.contexts
        = update_context (update_context env.contexts uid "user" msg) uid
            "assistant" (ask_gpt gpt env uid msg).1 := rfl
    rw [hsnd, get_context_update_self, get_context_update_self]
  · intro hfail
    simp [ask_gpt, hfail]

/-- Witness for C10 with the always-failing completion oracle. -/
theorem ask_gpt_context_effect_witness :
    get_context (ask_gpt (fun _ => none) initEnv "u" "hi").2.contexts "u"
      = dequeAppend (dequeAppend (get_context initEnv.contexts "u") ⟨"user", "hi"⟩)
          ⟨"assistant", (ask_gpt (fun _ => none) initEnv "u" "hi").1⟩
    ∧ (ask_gpt (fun _ => none) initEnv "u" "hi").2.gptCalls
        = initEnv.gptCalls + 1
    ∧ (ask_gpt (fun _ => none) initEnv "u" "hi").1 = FALLBACK :=
  ⟨(ask_gpt_context_effect (fun _ => none) initEnv "u" "hi").1,
   (ask_gpt_context_effect (fun _ => none) initEnv "u" "hi").2.1,
   (ask_gpt_context_effect (fun _ => none) initEnv "u" "hi").2.2 (fun _ => rfl)⟩
